import Mathlib

/-!
Shallow embedding of the `youtube-transcriber` repository.

The repository consists of five Python scripts (`a.py`,
`alternative_transcript.py`, `create_batches.py`, `hybrid_approach.py`,
`local_with_auth.py`).  Pure string/list manipulations are translated
directly; file contents are modelled as lists of lines (strings without a
trailing newline); the filesystem effect of a writer is modelled as the
list of lines it writes; calls into the external extraction/transcription
libraries are abstracted as function parameters; Python exceptions are
modelled with `Except String`.
-/

namespace YoutubeTranscriber

/-- ASCII whitespace recognised by Python's `str.strip()` with no argument
(space, tab, newline, carriage return, form feed, vertical tab).  The input
lines in scope are ASCII URLs, so the further Unicode whitespace stripped by
Python does not arise. -/
def isPySpace (c : Char) : Bool :=
  c == ' ' || c == '\t' || c == '\n' || c == '\r' || c == '\x0c' || c == '\x0b'

/-- Python's `line.strip()`: remove leading and trailing whitespace. -/
def pyStrip (s : String) : String :=
  ⟨((s.data.dropWhile isPySpace).reverse.dropWhile isPySpace).reverse⟩

/-- Python truthiness of an optional string: `None` and `""` are falsy. -/
def strTruthy (o : Option String) : Bool :=
  match o with
  | none => false
  | some s => !(s == "")

/-- Python's `line.startswith('#')` for the one-character prefix used by
the scripts: test whether the first character is `'#'`. -/
def startsWithHash (s : String) : Bool :=
  match s.data with
  | [] => false
  | c :: _ => c == '#'

/-- Embeds `read_links_from_file` of `a.py` (lines 215-225):
`[line.strip() for line in f if line.strip()]` — the comprehension filters
on the truthiness of the stripped line and returns the stripped line; it
does not look at `'#'`. -/
def read_links_from_file_a (lines : List String) : List String :=
  (lines.filter (fun line => !(pyStrip line == ""))).map pyStrip

/-- Embeds `read_links_from_file` of `hybrid_approach.py` (lines 71-79):
`[line.strip() for line in f if line.strip() and not line.startswith('#')]`.
The `startswith` test is applied to the raw line, the strip to the result. -/
def read_links_from_file_hybrid (lines : List String) : List String :=
  (lines.filter (fun line => !(pyStrip line == "") && !(startsWithHash line))).map pyStrip

/-- Embeds `read_links_from_file` of `local_with_auth.py` (lines 147-155),
textually the same comprehension as in `hybrid_approach.py`. -/
def read_links_from_file_local (lines : List String) : List String :=
  (lines.filter (fun line => !(pyStrip line == "") && !(startsWithHash line))).map pyStrip

/-- Embeds `read_links_from_file` of `alternative_transcript.py`
(lines 88-96), textually the same comprehension as in `hybrid_approach.py`. -/
def read_links_from_file_alt (lines : List String) : List String :=
  (lines.filter (fun line => !(pyStrip line == "") && !(startsWithHash line))).map pyStrip

/-- Embeds the inline link reading of `create_batches.py` (line 25), the
same comprehension as in `hybrid_approach.py`. -/
def read_links_create_batches (lines : List String) : List String :=
  (lines.filter (fun line => !(pyStrip line == "") && !(startsWithHash line))).map pyStrip

/-- Follows the spec's words for link-file parsing: return the stripped
lines, keeping a line exactly when its stripped form is non-empty and does
not start with `'#'`. -/
def spec_read_links (lines : List String) : List String :=
  (lines.map pyStrip).filter (fun s => !(s == "") && !(startsWithHash s))

/-- Spec-side recursive description of the comment-skipping readers: walk
the lines in order, ignore a line whose stripped form is empty, ignore a
line whose raw text begins with `'#'`, and emit every other line stripped. -/
def keep_noncomment_stripped : List String → List String
  | [] => []
  | l :: ls =>
    if pyStrip l = "" then keep_noncomment_stripped ls
    else if startsWithHash l then keep_noncomment_stripped ls
    else pyStrip l :: keep_noncomment_stripped ls

/-- Spec-side recursive description of a reader that ignores only blank
lines: walk the lines in order, ignore a line whose stripped form is empty,
and emit every other line stripped, comment lines included. -/
def keep_nonblank_stripped : List String → List String
  | [] => []
  | l :: ls =>
    if pyStrip l = "" then keep_nonblank_stripped ls
    else pyStrip l :: keep_nonblank_stripped ls

/-- The forbidden filename characters named by the spec. -/
def forbidden_chars : List Char :=
  ['|', '/', '\\', ':', '?', '*', '<', '>', '\"']

/-- The characters that the `replace` chain of
`save_transcript_to_file` maps to `'_'` (space included). -/
def underscore_chars : List Char :=
  [' ', '/', '\\', ':', '?', '*', '<', '>', '\"']

/-- Embeds the `clean_title` computation of `save_transcript_to_file`
(`a.py` line 160 and its copies): the chain
`.replace(' ', '_').replace('|', '').replace('/', '_').replace('\\', '_')
.replace(':', '_').replace('?', '_').replace('*', '_').replace('<', '_')
.replace('>', '_').replace('"', '_')`.
Every pattern is a single character, no pattern is `'_'`, and no pattern
occurs among the replacement strings, so the sequential `str.replace` chain
equals this single character-wise pass: `'|'` is deleted, the characters of
`underscore_chars` become `'_'`, all others are kept. -/
def clean_title_chars : List Char → List Char
  | [] => []
  | c :: cs =>
    if c = '|' then clean_title_chars cs
    else if c ∈ underscore_chars then '_' :: clean_title_chars cs
    else c :: clean_title_chars cs

/-- String wrapper for `clean_title_chars`. -/
def clean_title (video_title : String) : String :=
  ⟨clean_title_chars video_title.data⟩

/-- Embeds the filename computation of `save_transcript_to_file`
(`a.py` lines 160-165 and its copies):
`filename = f"transcript_{clean_title}.txt"`, then
`if len(filename) > 200: filename = filename[:200] + ".txt"`. -/
def transcript_filename_chars (title : List Char) : List Char :=
  let filename := "transcript_".data ++ clean_title_chars title ++ ".txt".data
  if 200 < filename.length then filename.take 200 ++ ".txt".data else filename

/-- String wrapper for `transcript_filename_chars`. -/
def transcript_filename (video_title : String) : String :=
  ⟨transcript_filename_chars video_title.data⟩

/-- Embeds `save_transcript_to_file` (`a.py` lines 152-171,
`hybrid_approach.py` lines 54-69, `alternative_transcript.py` lines 69-86,
`local_with_auth.py` lines 130-145; the four copies are identical up to
console messages).  The returned pair is the function's return value
(`None` on a falsy transcript, else the filename) together with the list of
files written, each as (name, content): `if not transcript: return` writes
nothing, otherwise exactly one file is written. -/
def save_transcript_to_file (transcript : Option String) (video_title : String) :
    Option String × List (String × String) :=
  match transcript with
  | none => (none, [])
  | some s =>
    if s == "" then (none, [])
    else
      let filename := transcript_filename video_title
      (some filename, [(filename, s)])

/-- Embeds the ceiling division of `create_batches.py` line 32:
`total_batches = (total_links + batch_size - 1) // batch_size`. -/
def pyCeilDiv (n bs : Nat) : Nat :=
  (n + bs - 1) / bs

/-- Embeds the slice `links[start_idx:end_idx]` of `create_batches.py`
lines 39-41 with `start_idx = i * batch_size` and
`end_idx = min(start_idx + batch_size, total_links)`. -/
def batch_links (links : List String) (bs i : Nat) : List String :=
  (links.drop (i * bs)).take bs

/-- Embeds the header comment written first into each batch file
(`create_batches.py` line 46). -/
def batch_header (links : List String) (bs i : Nat) : String :=
  "# Batch " ++ toString (i + 1) ++ "/" ++ toString (pyCeilDiv links.length bs) ++
    " - Links " ++ toString (i * bs + 1) ++ "-" ++
    toString (min (i * bs + bs) links.length)

/-- The lines of one batch file (`create_batches.py` lines 45-48): the
header comment line followed by the links of the slice. -/
def batch_file (links : List String) (bs i : Nat) : List String :=
  batch_header links bs i :: batch_links links bs i

/-- Embeds the batch-file loop of `create_batches` (`create_batches.py`
lines 38-48): for `i in range(total_batches)` write the file holding the
`i`-th slice.  Input is the already-parsed link list, output the list of
batch-file contents in creation order. -/
def create_batches (links : List String) (bs : Nat) : List (List String) :=
  (List.range (pyCeilDiv links.length bs)).map (batch_file links bs)

/-- Embeds `create_remaining_links_file` of `hybrid_approach.py`
(lines 81-95) as the lines of the file it writes: three header comment
lines, a blank line (from the trailing `\n\n`), then one line per failed
URL.  This lines-model is faithful when no URL contains a newline. -/
def create_remaining_links_file (failed_urls : List String) : List String :=
  ["# Videos that need local audio transcription",
   "# These videos don't have Hebrew transcripts available",
   "# Process these locally with authentication",
   ""] ++ failed_urls

/-- Embeds the main loop of `a.py` (lines 273-282): starting from
`successful_count = 0, failed_count = 0`, each iteration increments exactly
one counter according to the boolean returned by `process_youtube_link`,
abstracted as `outcome`. -/
def run_counts_a (outcome : String → Bool) (links : List String) : Nat × Nat :=
  links.foldl
    (fun c url => if outcome url then (c.1 + 1, c.2) else (c.1, c.2 + 1))
    (0, 0)

/-- Embeds the main loop of `local_with_auth.py` (lines 215-222):
`successful`/`failed` counters updated from the boolean returned by
`process_video_locally`, abstracted as `outcome`. -/
def run_counts_local (outcome : String → Bool) (links : List String) : Nat × Nat :=
  links.foldl
    (fun c url => if outcome url then (c.1 + 1, c.2) else (c.1, c.2 + 1))
    (0, 0)

/-- Embeds phase 1 of `hybrid_approach.py` (lines 113-130):
`successful_count` is incremented when a transcript and title are obtained
(abstracted as `outcome`), otherwise the URL is appended to `failed_urls`. -/
def run_hybrid_phase1 (outcome : String → Bool) (links : List String) :
    Nat × List String :=
  links.foldl
    (fun c url => if outcome url then (c.1 + 1, c.2) else (c.1, c.2 ++ [url]))
    (0, [])

/-- Embeds the body of the outer `try` of `process_youtube_link` in `a.py`
(lines 234-252).  The external steps are parameters returning
`Except String` values (`.error` models a raised exception):
`download` is `download_audio_from_youtube(url)` returning the
`(audio_file, video_title)` pair, `transcribe`, `save` and `removeFile` are
the subsequent calls.  `if audio_file and video_title:` is Python
truthiness: both non-`None` and non-empty. -/
def process_youtube_link_body
    (download : Except String (Option String × Option String))
    (transcribe : String → Except String (Option String))
    (save : Option String → String → Except String (Option String))
    (removeFile : String → Except String Unit) : Except String Bool := do
  let r ← download
  match r with
  | (some audio_file, some video_title) =>
    if !(audio_file == "") && !(video_title == "") then do
      let transcript ← transcribe audio_file
      let _ ← save transcript video_title
      let _ ← removeFile audio_file
      pure true
    else pure false
  | _ => pure false

/-- Embeds `process_youtube_link` of `a.py` (lines 227-256): the body runs
inside `try`, and the `except Exception` handler prints and returns
`False`. -/
def process_youtube_link
    (download : Except String (Option String × Option String))
    (transcribe : String → Except String (Option String))
    (save : Option String → String → Except String (Option String))
    (removeFile : String → Except String Unit) : Bool :=
  match process_youtube_link_body download transcribe save removeFile with
  | .ok b => b
  | .error _ => false

/-- Embeds the body of the outer `try` of `process_video_locally` in
`local_with_auth.py` (lines 164-187): early `return False` when download or
transcription yields a falsy value, and the `os.remove` call is wrapped in
its own `try/except: pass`, so its exception is swallowed. -/
def process_video_locally_body
    (download : Except String (Option String × Option String))
    (transcribe : String → Except String (Option String))
    (save : Option String → String → Except String (Option String))
    (removeFile : String → Except String Unit) : Except String Bool := do
  let r ← download
  match r with
  | (some audio_file, some video_title) =>
    if !(audio_file == "") && !(video_title == "") then do
      let transcript ← transcribe audio_file
      if strTruthy transcript then do
        let _ ← save transcript video_title
        let _ : Unit := (match removeFile audio_file with
          | .ok u => u
          | .error _ => ())
        pure true
      else pure false
    else pure false
  | _ => pure false

/-- Embeds `process_video_locally` of `local_with_auth.py` (lines 157-191):
the body runs inside `try`, and the `except Exception` handler prints and
returns `False`. -/
def process_video_locally
    (download : Except String (Option String × Option String))
    (transcribe : String → Except String (Option String))
    (save : Option String → String → Except String (Option String))
    (removeFile : String → Except String Unit) : Bool :=
  match process_video_locally_body download transcribe save removeFile with
  | .ok b => b
  | .error _ => false

/-- Embeds the body of the outer `try` of `process_youtube_link_transcript`
in `alternative_transcript.py` (lines 108-116): fetch the transcript and
title, and on a truthy pair save and return `True`, else return `False`. -/
def process_youtube_link_transcript_body
    (getTranscript : Except String (Option String × Option String))
    (save : Option String → String → Except String (Option String)) :
    Except String Bool := do
  let r ← getTranscript
  match r with
  | (some transcript, some video_title) =>
    if !(transcript == "") && !(video_title == "") then do
      let _ ← save (some transcript) video_title
      pure true
    else pure false
  | _ => pure false

/-- Embeds `process_youtube_link_transcript` of `alternative_transcript.py`
(lines 98-120): the body runs inside `try`, and the `except Exception`
handler prints and returns `False`. -/
def process_youtube_link_transcript
    (getTranscript : Except String (Option String × Option String))
    (save : Option String → String → Except String (Option String)) : Bool :=
  match process_youtube_link_transcript_body getTranscript save with
  | .ok b => b
  | .error _ => false

/-- The fixed fallback list of `download_audio_from_youtube`
(`a.py` lines 63-68): `client_configs`, each entry the `player_client`
list of one attempt. -/
def client_configs : List (List String) :=
  [["ios"], ["android"], ["web"], ["mweb"]]

/-- Embeds the `for i, client_config in enumerate(client_configs, 1)` loop
of `a.py` (lines 70-118): each attempt either succeeds with an
`(output_file, video_title)` pair or fails (a `DownloadError`, any other
exception, or a missing output file all `continue` to the next
configuration); the first success is returned. -/
def try_client_configs (attempt : List String → Option (String × String)) :
    List (List String) → Option (String × String)
  | [] => none
  | c :: rest =>
    match attempt c with
    | some r => some r
    | none => try_client_configs attempt rest

/-- Embeds `download_audio_from_youtube` of `a.py` (lines 9-125): try the
client configurations in order; a success returns the pair, and after the
loop exhausts all configurations the function returns `(None, None)`
(line 121). -/
def download_audio_from_youtube (attempt : List String → Option (String × String)) :
    Option String × Option String :=
  match try_client_configs attempt client_configs with
  | some (f, t) => (some f, some t)
  | none => (none, none)

/-- The fixed Hebrew language-code fallback list of
`get_transcript_from_youtube` (`alternative_transcript.py` line 35):
`language_preferences = ['he', 'iw']`. -/
def language_preferences : List String :=
  ["he", "iw"]

/-- Embeds the `for lang in language_preferences` loop of
`alternative_transcript.py` (lines 37-60): each fetch either yields a truthy
formatted transcript or fails (an exception or a falsy transcript both
continue); the first success is returned. -/
def try_languages (fetch : String → Option String) :
    List String → Option String
  | [] => none
  | l :: rest =>
    match fetch l with
    | some t => some t
    | none => try_languages fetch rest

/-- Embeds `get_transcript_from_youtube` of `alternative_transcript.py`
(lines 21-67): with no extractable video id the function returns
`(None, None)`; otherwise the language codes are tried in order, a success
returns `(text, "video_" + video_id)`, and after both codes fail the
function reports `(None, None)` (lines 62-63). -/
def get_transcript_from_youtube (videoId : Option String)
    (fetch : String → Option String) : Option String × Option String :=
  match videoId with
  | none => (none, none)
  | some vid =>
    match try_languages fetch language_preferences with
    | some text => (some text, some ("video_" ++ vid))
    | none => (none, none)

/-! Helper lemmas. -/

/-- The comment-skipping comprehension equals its recursive description. -/
theorem filter_map_keep_noncomment (lines : List String) :
    (lines.filter (fun line => !(pyStrip line == "") && !(startsWithHash line))).map pyStrip
      = keep_noncomment_stripped lines := by
  induction lines with
  | nil => rfl
  | cons l ls ih =>
    by_cases h1 : pyStrip l = ""
    · simp [keep_noncomment_stripped, List.filter_cons, h1, ih]
    · by_cases h2 : startsWithHash l
      · simp [keep_noncomment_stripped, List.filter_cons, h1, h2, ih]
      · simp [keep_noncomment_stripped, List.filter_cons, h1, h2, ih]

/-- The blank-skipping comprehension equals its recursive description. -/
theorem filter_map_keep_nonblank (lines : List String) :
    (lines.filter (fun line => !(pyStrip line == ""))).map pyStrip
      = keep_nonblank_stripped lines := by
  induction lines with
  | nil => rfl
  | cons l ls ih =>
    by_cases h1 : pyStrip l = ""
    · simp [keep_nonblank_stripped, List.filter_cons, h1, ih]
    · simp [keep_nonblank_stripped, List.filter_cons, h1, ih]

/-- Summing the two counters of the per-link loop body over any prefix adds
the number of processed links to the initial sum. -/
theorem foldl_counts_sum (outcome : String → Bool) (links : List String) :
    ∀ init : Nat × Nat,
      ((links.foldl
          (fun c url => if outcome url then (c.1 + 1, c.2) else (c.1, c.2 + 1))
          init).1
        + (links.foldl
            (fun c url => if outcome url then (c.1 + 1, c.2) else (c.1, c.2 + 1))
            init).2)
        = init.1 + init.2 + links.length := by
  induction links with
  | nil => intro init; simp
  | cons l ls ih =>
    intro init
    rw [List.foldl_cons]
    by_cases h : outcome l
    · rw [if_pos h, ih]
      simp
      omega
    · rw [if_neg h, ih]
      simp
      omega

/-- Summing the success counter and the failed-URL count of the hybrid
phase-1 loop body over any prefix adds the number of processed links to the
initial sum. -/
theorem foldl_hybrid_sum (outcome : String → Bool) (links : List String) :
    ∀ init : Nat × List String,
      ((links.foldl
          (fun c url => if outcome url then (c.1 + 1, c.2) else (c.1, c.2 ++ [url]))
          init).1
        + (links.foldl
            (fun c url => if outcome url then (c.1 + 1, c.2) else (c.1, c.2 ++ [url]))
            init).2.length)
        = init.1 + init.2.length + links.length := by
  induction links with
  | nil => intro init; simp
  | cons l ls ih =>
    intro init
    rw [List.foldl_cons]
    by_cases h : outcome l
    · rw [if_pos h, ih]
      simp
      omega
    · rw [if_neg h, ih]
      simp
      omega

/-! Claim theorems. -/

/-- C1 (counterexample): `read_links_from_file` of `a.py` does not ignore
comment lines: on the file `["# comment", "https://u"]` it returns the
comment line as a link, while the spec-described parse drops it. -/
theorem c1_counterexample :
    read_links_from_file_a ["# comment", "https://u"]
        = ["# comment", "https://u"] ∧
    spec_read_links ["# comment", "https://u"] = ["https://u"] ∧
    read_links_from_file_a ["# comment", "https://u"]
        ≠ spec_read_links ["# comment", "https://u"] := by
  refine ⟨by decide, by decide, by decide⟩

/-- C1 (amended): the link readers of `hybrid_approach.py`,
`local_with_auth.py`, `alternative_transcript.py` and `create_batches.py`
return, in original order, the stripped forms of exactly those lines that
are non-blank after stripping and whose raw text does not begin with `'#'`;
the reader of `a.py` ignores only blank lines and returns every other line
stripped, comment lines included. -/
theorem c1_link_readers :
    (∀ lines, read_links_from_file_hybrid lines = keep_noncomment_stripped lines) ∧
    (∀ lines, read_links_from_file_local lines = keep_noncomment_stripped lines) ∧
    (∀ lines, read_links_from_file_alt lines = keep_noncomment_stripped lines) ∧
    (∀ lines, read_links_create_batches lines = keep_noncomment_stripped lines) ∧
    (∀ lines, read_links_from_file_a lines = keep_nonblank_stripped lines) :=
  ⟨fun lines => filter_map_keep_noncomment lines,
   fun lines => filter_map_keep_noncomment lines,
   fun lines => filter_map_keep_noncomment lines,
   fun lines => filter_map_keep_noncomment lines,
   fun lines => filter_map_keep_nonblank lines⟩

/-- C5: in every script's main loop each iteration increments exactly one
of the two tallies, so after any prefix of the links — in particular after
a full run — the success tally plus the failure tally equals the number of
links processed ( for `hybrid_approach.py` the failure tally is the length
of `failed_urls`). -/
theorem c5_counters_sum (outcome : String → Bool) (links : List String) (k : Nat) :
    (run_counts_a outcome (links.take k)).1 + (run_counts_a outcome (links.take k)).2
        = (links.take k).length ∧
    (run_counts_a outcome links).1 + (run_counts_a outcome links).2 = links.length ∧
    (run_counts_local outcome links).1 + (run_counts_local outcome links).2
        = links.length ∧
    (run_hybrid_phase1 outcome links).1 + (run_hybrid_phase1 outcome links).2.length
        = links.length := by
  refine ⟨?_, ?_, ?_, ?_⟩
  · simpa using foldl_counts_sum outcome (links.take k) (0, 0)
  · simpa using foldl_counts_sum outcome links (0, 0)
  · simpa using foldl_counts_sum outcome links (0, 0)
  · simpa using foldl_hybrid_sum outcome links (0, [])

/-- C10: calling `save_transcript_to_file` with a falsy transcript (`None`
or the empty string) returns `None` and writes no file. -/
theorem c10_save_falsy_writes_nothing (transcript : Option String)
    (video_title : String) (h : transcript = none ∨ transcript = some "") :
    save_transcript_to_file transcript video_title = (none, []) := by
  rcases h with h | h <;> subst h <;> rfl

/-- Witness for C10 at concrete inputs. -/
theorem c10_witness :
    save_transcript_to_file none "Some Title" = (none, []) ∧
    save_transcript_to_file (some "") "Some Title" = (none, []) :=
  ⟨c10_save_falsy_writes_nothing none "Some Title" (Or.inl rfl),
   c10_save_falsy_writes_nothing (some "") "Some Title" (Or.inr rfl)⟩

/-- C6: whenever the body of a per-video processing function raises an
exception, the outer handler turns it into the return value `False` instead
of propagating it, in `a.py` (`process_youtube_link`), `local_with_auth.py`
(`process_video_locally`) and `alternative_transcript.py`
(`process_youtube_link_transcript`); hence each call returns a plain
boolean and the main loop reaches every link of the input list. -/
theorem c6_process_never_propagates
    (download : Except String (Option String × Option String))
    (transcribe : String → Except String (Option String))
    (save : Option String → String → Except String (Option String))
    (removeFile : String → Except String Unit)
    (getTranscript : Except String (Option String × Option String))
    (save2 : Option String → String → Except String (Option String))
    (e1 e2 e3 : String) :
    (process_youtube_link_body download transcribe save removeFile = .error e1 →
      process_youtube_link download transcribe save removeFile = false) ∧
    (process_video_locally_body download transcribe save removeFile = .error e2 →
      process_video_locally download transcribe save removeFile = false) ∧
    (process_youtube_link_transcript_body getTranscript save2 = .error e3 →
      process_youtube_link_transcript getTranscript save2 = false) := by
  refine ⟨?_, ?_, ?_⟩ <;> intro h
  · simp [process_youtube_link, h]
  · simp [process_video_locally, h]
  · simp [process_youtube_link_transcript, h]

/-- Witness for C6: a raised exception in the download or fetch step makes
each processing function return `False`. -/
theorem c6_witness :
    process_youtube_link (.error "boom") (fun _ => .ok none)
        (fun _ _ => .ok none) (fun _ => .ok ()) = false ∧
    process_video_locally (.error "boom") (fun _ => .ok none)
        (fun _ _ => .ok none) (fun _ => .ok ()) = false ∧
    process_youtube_link_transcript (.error "boom") (fun _ _ => .ok none) = false := by
  obtain ⟨h1, h2, h3⟩ :=
    c6_process_never_propagates (.error "boom") (fun _ => .ok none)
      (fun _ _ => .ok none) (fun _ => .ok ()) (.error "boom")
      (fun _ _ => .ok none) "boom" "boom" "boom"
  exact ⟨h1 rfl, h2 rfl, h3 rfl⟩

/-- C7: the audio downloader of `a.py` tries the client identities
`['ios']`, `['android']`, `['web']`, `['mweb']` in exactly that order,
returns the first success, and yields `(None, None)` exactly when all four
attempts fail; the caption fetcher of `alternative_transcript.py` tries the
language codes `'he'` then `'iw'` in that order and reports `(None, None)`
for the video exactly when both fail. -/
theorem c7_fallback_order (attempt : List String → Option (String × String))
    (fetch : String → Option String) (vid : String) :
    client_configs = [["ios"], ["android"], ["web"], ["mweb"]] ∧
    language_preferences = ["he", "iw"] ∧
    try_client_configs attempt client_configs =
      ((attempt ["ios"]).orElse fun _ => (attempt ["android"]).orElse fun _ =>
        (attempt ["web"]).orElse fun _ => attempt ["mweb"]) ∧
    (download_audio_from_youtube attempt = (none, none) ↔
      attempt ["ios"] = none ∧ attempt ["android"] = none ∧
        attempt ["web"] = none ∧ attempt ["mweb"] = none) ∧
    try_languages fetch language_preferences =
      ((fetch "he").orElse fun _ => fetch "iw") ∧
    (get_transcript_from_youtube (some vid) fetch = (none, none) ↔
      fetch "he" = none ∧ fetch "iw" = none) := by
  refine ⟨rfl, rfl, ?_, ?_, ?_, ?_⟩
  · cases h1 : attempt ["ios"] <;> cases h2 : attempt ["android"] <;>
      cases h3 : attempt ["web"] <;> cases h4 : attempt ["mweb"] <;>
      simp [try_client_configs, client_configs, h1, h2, h3, h4, Option.orElse]
  · cases h1 : attempt ["ios"] <;> cases h2 : attempt ["android"] <;>
      cases h3 : attempt ["web"] <;> cases h4 : attempt ["mweb"] <;>
      simp [download_audio_from_youtube, try_client_configs, client_configs,
        h1, h2, h3, h4]
  · cases h1 : fetch "he" <;> cases h2 : fetch "iw" <;>
      simp [try_languages, language_preferences, h1, h2, Option.orElse]
  · cases h1 : fetch "he" <;> cases h2 : fetch "iw" <;>
      simp [get_transcript_from_youtube, try_languages, language_preferences,
        h1, h2]

/-- C8: in `a.py`, when the download step yields a truthy audio file and
title, `process_youtube_link` returns `True` even though the transcription
step returns `None` — and with a `None` transcript
`save_transcript_to_file` writes no file, so the video is tallied as a
successful transcription although no transcript file exists. -/
theorem c8_success_without_transcript
    (audio_file video_title : String)
    (transcribe : String → Except String (Option String))
    (removeFile : String → Except String Unit)
    (ha : audio_file ≠ "") (ht : video_title ≠ "")
    (htr : transcribe audio_file = .ok none)
    (hrm : removeFile audio_file = .ok ()) :
    process_youtube_link (.ok (some audio_file, some video_title)) transcribe
        (fun tr title => .ok (save_transcript_to_file tr title).1) removeFile
      = true ∧
    (save_transcript_to_file none video_title).2 = [] := by
  constructor
  · have hbody : process_youtube_link_body (.ok (some audio_file, some video_title))
        transcribe (fun tr title => .ok (save_transcript_to_file tr title).1) removeFile
        = .ok true := by
      have hc : (!(audio_file == "") && !(video_title == "")) = true := by
        simp [ha, ht]
      unfold process_youtube_link_body
      simp only [bind, Except.bind]
      simp only [htr, hrm]
      rw [if_pos hc]
      rfl
    unfold process_youtube_link
    rw [hbody]
  · rfl

/-- Witness for C8 at concrete inputs. -/
theorem c8_witness :
    process_youtube_link (.ok (some "audio.mp3", some "Video Title"))
        (fun _ => .ok none)
        (fun tr title => .ok (save_transcript_to_file tr title).1)
        (fun _ => .ok ()) = true ∧
    (save_transcript_to_file none "Video Title").2 = [] :=
  c8_success_without_transcript "audio.mp3" "Video Title"
    (fun _ => .ok none) (fun _ => .ok ())
    (by decide) (by decide) rfl rfl

/-- Ceiling division of `0` is `0`. -/
theorem pyCeilDiv_zero (bs : Nat) : pyCeilDiv 0 bs = 0 := by
  unfold pyCeilDiv
  cases bs with
  | zero => rfl
  | succ b =>
    apply Nat.div_eq_of_lt
    omega

/-- Peeling one batch off the ceiling division. -/
theorem pyCeilDiv_succ_step (n bs : Nat) (hbs : 0 < bs) (hn : 0 < n) :
    pyCeilDiv n bs = pyCeilDiv (n - bs) bs + 1 := by
  unfold pyCeilDiv
  by_cases h : bs ≤ n
  · have h1 : n - bs + bs - 1 = n - 1 := by omega
    have h2 : n + bs - 1 = (n - 1) + bs := by omega
    rw [h1, h2, Nat.add_div_right _ hbs]
  · have h1 : n - bs = 0 := by omega
    rw [h1]
    have h2 : (0 + bs - 1) / bs = 0 := by
      apply Nat.div_eq_of_lt
      omega
    rw [h2]
    have h3 : n + bs - 1 = (n - 1) + bs := by omega
    rw [h3, Nat.add_div_right _ hbs]
    have h4 : (n - 1) / bs = 0 := by
      apply Nat.div_eq_of_lt
      omega
    rw [h4]

/-- Concatenating the slices `links[i*bs : i*bs+bs]` for
`i in range(ceil(len/bs))` rebuilds the original list. -/
theorem join_batch_links (bs : Nat) (hbs : 0 < bs) :
    ∀ (n : Nat) (links : List String), links.length ≤ n →
      ((List.range (pyCeilDiv links.length bs)).map (batch_links links bs)).flatten
        = links := by
  intro n
  induction n with
  | zero =>
    intro links hlen
    have hnil : links = [] := List.length_eq_zero.mp (Nat.le_zero.mp hlen)
    subst hnil
    simp [pyCeilDiv_zero]
  | succ n ih =>
    intro links hlen
    cases links with
    | nil => simp [pyCeilDiv_zero]
    | cons a as =>
      have hpos : 0 < (a :: as).length := by simp
      rw [pyCeilDiv_succ_step _ _ hbs hpos, List.range_succ_eq_map,
        List.map_cons, List.map_map, List.flatten_cons]
      have hhead : batch_links (a :: as) bs 0 = (a :: as).take bs := by
        simp [batch_links]
      have hlen2 : ((a :: as).drop bs).length = (a :: as).length - bs :=
        List.length_drop bs (a :: as)
      have htail : (List.range (pyCeilDiv ((a :: as).length - bs) bs)).map
          ((batch_links (a :: as) bs) ∘ Nat.succ)
          = (List.range (pyCeilDiv ((a :: as).drop bs).length bs)).map
              (batch_links ((a :: as).drop bs) bs) := by
        rw [hlen2]
        apply List.map_congr_left
        intro i _
        simp only [Function.comp, batch_links]
        rw [List.drop_drop]
        have hmul : bs + i * bs = Nat.succ i * bs := by
          rw [Nat.succ_mul]
          omega
        rw [hmul]
      rw [hhead, htail, ih ((a :: as).drop bs) (by rw [hlen2]; omega)]
      exact List.take_append_drop bs (a :: as)

/-- C4: for a non-empty list of parsed links and a positive batch size,
`create_batches` produces exactly `⌈N / batch_size⌉` batch files, and the
link lines of the batch files (each file minus its header comment line),
concatenated in file order, are exactly the original links — none dropped,
none duplicated. -/
theorem c4_create_batches (links : List String) (bs : Nat)
    (_hne : links ≠ []) (hbs : 0 < bs) :
    (create_batches links bs).length = links.length ⌈/⌉ bs ∧
    ((create_batches links bs).map List.tail).flatten = links := by
  constructor
  · rw [Nat.ceilDiv_eq_add_pred_div]
    simp [create_batches, pyCeilDiv]
  · have hmap : (create_batches links bs).map List.tail
        = (List.range (pyCeilDiv links.length bs)).map (batch_links links bs) := by
      simp only [create_batches, List.map_map]
      rfl
    rw [hmap]
    exact join_batch_links bs hbs links.length links le_rfl

/-- Witness for C4 at a concrete input: three links in batches of two. -/
theorem c4_witness :
    (create_batches ["a", "b", "c"] 2).length
        = (["a", "b", "c"] : List String).length ⌈/⌉ 2 ∧
    ((create_batches ["a", "b", "c"] 2).map List.tail).flatten = ["a", "b", "c"] :=
  c4_create_batches ["a", "b", "c"] 2 (by decide) (by decide)

/-- Every forbidden character is either the deleted `'|'` or one of the
characters replaced by `'_'`. -/
theorem mem_forbidden_imp (a : Char) (ha : a ∈ forbidden_chars) :
    a = '|' ∨ a ∈ underscore_chars := by
  fin_cases ha <;> decide

/-- The sanitized title contains no forbidden character. -/
theorem clean_title_chars_no_forbidden (l : List Char) (c : Char)
    (hc : c ∈ clean_title_chars l) : c ∉ forbidden_chars := by
  induction l with
  | nil => simp [clean_title_chars] at hc
  | cons a as ih =>
    simp only [clean_title_chars] at hc
    by_cases h1 : a = '|'
    · rw [if_pos h1] at hc
      exact ih hc
    · rw [if_neg h1] at hc
      by_cases h2 : a ∈ underscore_chars
      · rw [if_pos h2] at hc
        rcases List.mem_cons.mp hc with h | h
        · subst h
          decide
        · exact ih h
      · rw [if_neg h2] at hc
        rcases List.mem_cons.mp hc with h | h
        · subst h
          intro hf
          rcases mem_forbidden_imp c hf with h3 | h3
          · exact h1 h3
          · exact h2 h3
        · exact ih h

/-- Sanitization is length-preserving on titles that contain no `'|'`:
every other character maps to exactly one character. -/
theorem clean_title_chars_length (l : List Char) (h : '|' ∉ l) :
    (clean_title_chars l).length = l.length := by
  induction l with
  | nil => rfl
  | cons a as ih =>
    simp only [List.mem_cons, not_or] at h
    obtain ⟨h1, h2⟩ := h
    simp only [clean_title_chars]
    rw [if_neg (fun hh => h1 hh.symm)]
    by_cases h3 : a ∈ underscore_chars
    · rw [if_pos h3]
      simp [ih h2]
    · rw [if_neg h3]
      simp [ih h2]

/-- Sanitization never lengthens a title: each character yields at most
one character. -/
theorem clean_title_chars_length_le (l : List Char) :
    (clean_title_chars l).length ≤ l.length := by
  induction l with
  | nil => exact Nat.le_refl 0
  | cons a as ih =>
    simp only [clean_title_chars]
    by_cases h1 : a = '|'
    · rw [if_pos h1]
      exact Nat.le_succ_of_le ih
    · rw [if_neg h1]
      by_cases h2 : a ∈ underscore_chars
      · rw [if_pos h2]
        simpa using ih
      · rw [if_neg h2]
        simpa using ih

/-- Sanitization strictly shortens every title that contains a `'|'`,
because that character is deleted and no character is duplicated. -/
theorem clean_title_chars_length_lt (l : List Char) (h : '|' ∈ l) :
    (clean_title_chars l).length < l.length := by
  induction l with
  | nil => simp at h
  | cons a as ih =>
    simp only [clean_title_chars]
    by_cases h1 : a = '|'
    · rw [if_pos h1]
      exact Nat.lt_succ_of_le (clean_title_chars_length_le as)
    · have has : '|' ∈ as := by
        rcases List.mem_cons.mp h with h3 | h3
        · exact absurd h3.symm h1
        · exact h3
      rw [if_neg h1]
      by_cases h2 : a ∈ underscore_chars
      · rw [if_pos h2]
        simpa using ih has
      · rw [if_neg h2]
        simpa using ih has

/-- Unfolding of the filename computation. -/
theorem transcript_filename_chars_spec (title : List Char) :
    transcript_filename_chars title =
      if 200 < ("transcript_".data ++ clean_title_chars title ++ ".txt".data).length
      then ("transcript_".data ++ clean_title_chars title ++ ".txt".data).take 200
            ++ ".txt".data
      else "transcript_".data ++ clean_title_chars title ++ ".txt".data := rfl

/-- The produced filename contains no forbidden character: the fixed prefix
and extension are clean, and truncation only removes characters. -/
theorem transcript_filename_chars_no_forbidden (title : List Char) (c : Char)
    (hc : c ∈ transcript_filename_chars title) : c ∉ forbidden_chars := by
  have hpre : ∀ d : Char, d ∈ "transcript_".data → d ∉ forbidden_chars := by decide
  have hsuf : ∀ d : Char, d ∈ ".txt".data → d ∉ forbidden_chars := by decide
  rw [transcript_filename_chars_spec] at hc
  by_cases h : 200 < ("transcript_".data ++ clean_title_chars title ++ ".txt".data).length
  · rw [if_pos h] at hc
    rcases List.mem_append.mp hc with h1 | h1
    · have h2 := List.take_subset 200 _ h1
      rcases List.mem_append.mp h2 with h3 | h3
      · rcases List.mem_append.mp h3 with h4 | h4
        · exact hpre c h4
        · exact clean_title_chars_no_forbidden title c h4
      · exact hsuf c h3
    · exact hsuf c h1
  · rw [if_neg h] at hc
    rcases List.mem_append.mp hc with h3 | h3
    · rcases List.mem_append.mp h3 with h4 | h4
      · exact hpre c h4
      · exact clean_title_chars_no_forbidden title c h4
    · exact hsuf c h3

set_option maxRecDepth 4000 in
/-- C2 (counterexample): on a 190-character title the saved filename is
longer than 200 characters, refuting the claimed 200-character cap. -/
theorem c2_counterexample :
    200 < (transcript_filename ⟨List.replicate 190 'a'⟩).length := by decide

/-- C2 (amended): the filename produced by `save_transcript_to_file` has
length at most 204; when the constructed name
`transcript_<clean_title>.txt` exceeds 200 characters it is truncated to
its first 200 characters and `".txt"` is appended, so the saved name then
has length exactly 204, not at most 200. -/
theorem c2_filename_cap (video_title : String) :
    (transcript_filename video_title).length ≤ 204 ∧
    (200 < ("transcript_" ++ clean_title video_title ++ ".txt").length →
      (transcript_filename video_title).length = 204) := by
  have h11 : ("transcript_".data).length = 11 := rfl
  have h4 : (".txt".data).length = 4 := rfl
  have hdata : ("transcript_" ++ clean_title video_title ++ ".txt").length
      = ("transcript_".data ++ clean_title_chars video_title.data ++ ".txt".data).length :=
    rfl
  have hlen : (transcript_filename video_title).length
      = (transcript_filename_chars video_title.data).length := rfl
  rw [hlen, transcript_filename_chars_spec, hdata]
  by_cases h : 200 <
      ("transcript_".data ++ clean_title_chars video_title.data ++ ".txt".data).length
  · rw [if_pos h]
    simp only [List.length_append, List.length_take, h11, h4] at h ⊢
    constructor
    · omega
    · intro _
      omega
  · rw [if_neg h]
    simp only [List.length_append, h11, h4] at h ⊢
    constructor
    · omega
    · intro hcontra
      omega

set_option maxRecDepth 4000 in
/-- Witness for C2 at a concrete over-long title. -/
theorem c2_witness :
    (transcript_filename ⟨List.replicate 190 'a'⟩).length ≤ 204 ∧
    (transcript_filename ⟨List.replicate 190 'a'⟩).length = 204 :=
  ⟨(c2_filename_cap ⟨List.replicate 190 'a'⟩).1,
   (c2_filename_cap ⟨List.replicate 190 'a'⟩).2 (by decide)⟩

/-- C3 (counterexample): the title `"a|b"` sanitizes to `"ab"`: the `'|'`
is deleted, not replaced by `'_'`, so the sanitized title is shorter than
the original and differs from the claimed `"a_b"`. -/
theorem c3_counterexample :
    clean_title "a|b" = "ab" ∧
    (clean_title "a|b").length ≠ "a|b".length ∧
    clean_title "a|b" ≠ "a_b" := by
  refine ⟨by decide, by decide, by decide⟩

/-- C3 (amended): sanitization replaces each of `'/'`, `'\'`, `':'`, `'?'`,
`'*'`, `'<'`, `'>'`, `'"'` (and the space) by `'_'` but deletes `'|'`; the
resulting filename contains none of the forbidden characters, and the
sanitized title keeps the original length exactly when the title contains
no `'|'` (a title containing `'|'` becomes strictly shorter). -/
theorem c3_sanitization (video_title : String) (c : Char) :
    (c ∈ (transcript_filename video_title).data → c ∉ forbidden_chars) ∧
    ((clean_title video_title).length = video_title.length ↔ '|' ∉ video_title.data) := by
  constructor
  · intro hc
    exact transcript_filename_chars_no_forbidden video_title.data c hc
  · constructor
    · intro heq hpipe
      exact absurd heq (Nat.ne_of_lt (clean_title_chars_length_lt video_title.data hpipe))
    · intro h
      exact clean_title_chars_length video_title.data h

/-- Witness for C3 at a concrete title and character. -/
theorem c3_witness :
    '_' ∉ forbidden_chars ∧
    ((clean_title "a b").length = "a b".length ↔ '|' ∉ "a b".data) :=
  ⟨(c3_sanitization "a b" '_').1 (by decide), (c3_sanitization "a b" '_').2⟩

/-- Parsing a block of already-clean URL lines returns them unchanged. -/
theorem filter_map_clean_urls (urls : List String)
    (h : ∀ u ∈ urls, pyStrip u = u ∧ u ≠ "" ∧ startsWithHash u = false) :
    (urls.filter (fun line => !(pyStrip line == "") && !(startsWithHash line))).map pyStrip
      = urls := by
  induction urls with
  | nil => rfl
  | cons u us ih =>
    obtain ⟨h1, h2, h3⟩ := h u (List.mem_cons_self u us)
    have hrest : ∀ v ∈ us, pyStrip v = v ∧ v ≠ "" ∧ startsWithHash v = false :=
      fun v hv => h v (List.mem_cons_of_mem u hv)
    rw [List.filter_cons]
    have hcond : (!(pyStrip u == "") && !(startsWithHash u)) = true := by
      rw [h1, h3]
      simp [h2]
    rw [if_pos hcond, List.map_cons, h1, ih hrest]

/-- C9 (counterexample): a URL with leading whitespace satisfies the
claim's hypotheses (non-empty after stripping, no newline, does not start
with `'#'`) yet the round trip through the handoff file returns its
stripped form, not the original. -/
theorem c9_counterexample :
    pyStrip " https://u" ≠ "" ∧
    startsWithHash " https://u" = false ∧
    '\n' ∉ " https://u".data ∧
    read_links_from_file_local (create_remaining_links_file [" https://u"])
      = ["https://u"] ∧
    read_links_from_file_local (create_remaining_links_file [" https://u"])
      ≠ [" https://u"] := by
  refine ⟨by decide, by decide, by decide, by decide, by decide⟩

/-- C9 (amended): for every list of failed URLs in which each URL equals
its stripped form, is non-empty, does not start with `'#'` and contains no
newline, writing the list with `create_remaining_links_file` and parsing
the resulting file with `read_links_from_file` of `local_with_auth.py`
returns exactly the original list: the header comment lines and the blank
line are skipped by the parser. -/
theorem c9_round_trip (failed_urls : List String)
    (h : ∀ u ∈ failed_urls,
      pyStrip u = u ∧ u ≠ "" ∧ startsWithHash u = false ∧ '\n' ∉ u.data) :
    read_links_from_file_local (create_remaining_links_file failed_urls) = failed_urls := by
  unfold read_links_from_file_local create_remaining_links_file
  rw [List.filter_append, List.map_append]
  have hheaders : (["# Videos that need local audio transcription",
      "# These videos don't have Hebrew transcripts available",
      "# Process these locally with authentication", ""].filter
        (fun line => !(pyStrip line == "") && !(startsWithHash line))) = [] := by decide
  rw [hheaders]
  simp only [List.map_nil, List.nil_append]
  exact filter_map_clean_urls failed_urls
    (fun u hu => ⟨(h u hu).1, (h u hu).2.1, (h u hu).2.2.1⟩)

/-- Witness for C9 at a concrete URL list. -/
theorem c9_witness :
    read_links_from_file_local (create_remaining_links_file ["https://a", "https://b"])
      = ["https://a", "https://b"] :=
  c9_round_trip ["https://a", "https://b"] (by decide)

end YoutubeTranscriber
